import Mathlib

/-!
Shallow embedding of the `stardust-xs/xai` foreground-application usage
tracker, checked against its natural-language specification.

Source files embedded here:
* `src/mle/constants/defaults.py` — the tunables (`DAY_LIMIT`,
  `REFRESH_TIMER`, `EXCEPTION_TIMER`, `CSV_TS_FORMAT`).
* `src/mle/core/monitor/usage/app.py` — `split_time_spent`,
  `get_name_from_exe`, `get_active_window`, `get_application_name`,
  `get_process_name`, `get_username`.
* `src/mle/core/monitor/usage/app_details.py` — the unwrapped
  `get_active_window` revision imported by `application.py`.
* `src/mle/core/monitor/usage/run.py` — the polling loop body.
* `src/mle/core/monitor/usage/application.py` — the outer
  restart/interrupt handlers of the logged revision of the loop.
* `src/mle/utils/write.py` — `update_data` (CSV append-or-create).
* `src/xai/protocols.py` — `BabyMonitorProtocol.activate` and
  `BabyMonitorProtocol._time_spent`.

Modelling conventions: timestamps are `Int` seconds (the code's `now()`
is `datetime.now().replace(microsecond=0)`, so all recorded clocks are
whole seconds); Python `//` and `%` are `Int.fdiv` / `Int.fmod`
(floor semantics); Python string comparison is lexicographic on code
points, embedded as `pyListLt` over `Char.toNat` lists; fallible
OS/library calls (psutil, win32 resource tables, file writes) are inputs
from an environment oracle, and code that catches an exception is
translated to the corresponding case split on that oracle outcome.
-/

namespace Xai

/-- `REFRESH_TIMER = 1.0` from `mle/constants/defaults.py` (seconds). -/
def REFRESH_TIMER : Nat := 1

/-- `EXCEPTION_TIMER = 30.0` from `mle/constants/defaults.py` (seconds). -/
def EXCEPTION_TIMER : Nat := 30

/-- `DAY_LIMIT = '23:59:59'` from `mle/constants/defaults.py`. -/
def DAY_LIMIT : String := "23:59:59"

/-! ### Python string comparison

Python compares `str` values lexicographically on code points.  The
tracker compares `datetime.now().strftime('%H:%M:%S')` against
`DAY_LIMIT` with `>=` and `!=`. -/

/-- Lexicographic strict order on code-point lists, exactly Python's
`<` on strings: the first differing position decides, and a strict
prefix is smaller. -/
def pyListLt : List Nat → List Nat → Bool
  | _, [] => false
  | [], _ :: _ => true
  | a :: as, b :: bs =>
    if a < b then true
    else if b < a then false
    else pyListLt as bs

/-- Python `a < b` on strings. -/
def pyStrLt (a b : String) : Bool :=
  pyListLt (a.data.map Char.toNat) (b.data.map Char.toNat)

/-- Python `a >= b` on strings (total order, so `¬ a < b`). -/
def pyStrGe (a b : String) : Bool := !(pyStrLt a b)

/-- One decimal digit character, code point `48 + k`. -/
def digitChar (k : Nat) : Char := Char.ofNat (48 + k)

/-- The result of `strftime('%H:%M:%S')` for time-of-day
`h:m:s`: two zero-padded digits per component, `:`-separated. -/
def strftimeHMS (h m s : Nat) : String :=
  String.mk [digitChar (h / 10), digitChar (h % 10), ':',
             digitChar (m / 10), digitChar (m % 10), ':',
             digitChar (s / 10), digitChar (s % 10)]

/-! ### `split_time_spent` (`mle/core/monitor/usage/app.py`, lines 28-34)

```python
def split_time_spent(total_time: timedelta) -> Tuple:
  days, secs = total_time.days, total_time.seconds
  hours = days * 24 + secs // 3600
  mins = (secs % 3600) // 60
  secs = secs % 60
  return days, hours, mins, secs
```
A `timedelta` of `t` whole seconds has `days = t // 86400` and
`seconds = t % 86400` (floor semantics, `seconds ∈ [0, 86400)`). -/

/-- `timedelta.days` for a delta of `t` whole seconds. -/
def timedeltaDays (t : Int) : Int := Int.fdiv t 86400

/-- `timedelta.seconds` for a delta of `t` whole seconds. -/
def timedeltaSeconds (t : Int) : Int := Int.fmod t 86400

/-- `split_time_spent` from `app.py` (identical copy in
`app_details.py`): note that the first component returned — and later
written to the CSV `days` column — is `total_time.days` itself. -/
def split_time_spent (t : Int) : Int × Int × Int × Int :=
  let days := timedeltaDays t
  let secs := timedeltaSeconds t
  (days, days * 24 + Int.fdiv secs 3600, Int.fdiv (Int.fmod secs 3600) 60,
   Int.fmod secs 60)

/-! ### Tracker state and one poll of the `run.py` loop -/

/-- Result of `get_active_window()`: the window handle text (`None`
when the owning pid no longer exists) and the three independently
fallible metadata lookups. -/
structure ActiveWindow where
  window : Option String
  app : Option String
  exe : Option String
  user : Option String
deriving Repr, DecidableEq

/-- The tracker's mutable module-level state in `run.py` /
`application.py`: the four `previous_*` variables and `start_time`. -/
structure TrackerState where
  previous_window : Option String
  previous_app : Option String
  previous_exe : Option String
  previous_user : Option String
  start_time : Int
deriving Repr, DecidableEq

/-- Outcome of the `update_data` call seen by the loop: success, a
`PermissionError` (file locked — caught by the loop), or any other
exception (propagates out of the loop body). -/
inductive WriteOutcome
  | ok
  | permissionDenied
  | otherError
deriving Repr, DecidableEq

/-- Everything one iteration of the `run.py` loop reads from the
outside world: the `get_active_window()` result, the two separate
`datetime.now().strftime('%H:%M:%S')` reads (file-path check and
switch-guard check), the `'%d_%m_%y'` renderings of today and of
`now() + timedelta(days=1)`, the two `now()` reads (`end_time` and the
`finally` reset), and the outcome of the CSV write. -/
structure PollInput where
  active : ActiveWindow
  tod_file : String
  tod_guard : String
  date_today : String
  date_tomorrow : String
  end_now : Int
  reset_now : Int
  write : WriteOutcome
deriving Repr, DecidableEq

/-- One CSV record as assembled by the `update_data(...)` call in
`run.py`: the four `previous_*` fields, the interval bounds, the total
seconds, and the four components of `split_time_spent`. -/
structure Row where
  activity : Option String
  app : Option String
  exe : Option String
  user : Option String
  started : Int
  stopped : Int
  spent : Int
  days : Int
  hours : Int
  mins : Int
  secs : Int
deriving Repr, DecidableEq

/-- Observable outcome of one loop iteration: the state left behind,
the target CSV path computed this tick, the row actually appended (if
any), whether the `PermissionError` toast fired, and whether an
exception escaped the iteration. -/
structure PollResult where
  state : TrackerState
  file : String
  written : Option Row
  error_notified : Bool
  raised : Bool
deriving Repr, DecidableEq

/-- Python truthiness of an optional string: `None` and `''` are
falsy. -/
def pyTruthy : Option String → Bool
  | none => false
  | some s => !(s == "")

/-- `symlinks.usage`: `<package>/data/raw/monitor/usage`. -/
def usage_dir : String := "mle/data/raw/monitor/usage"

/-- `os.path.join` for the one shape used here. -/
def joinPath (d f : String) : String := d ++ "/" ++ f

/-- Target CSV path of this tick (`run.py` lines 55-61): tomorrow's
date when the formatted time-of-day compares `>=` `DAY_LIMIT`, today's
otherwise, then `<usage>/<date>.csv`. -/
def targetFile (inp : PollInput) : String :=
  joinPath usage_dir
    ((if pyStrGe inp.tod_file DAY_LIMIT then inp.date_tomorrow
      else inp.date_today) ++ ".csv")

/-- The unconditional `previous_* = active_*` assignments at the end of
the non-Task-Switching branch. -/
def observe (st : TrackerState) (a : ActiveWindow) : TrackerState :=
  { st with previous_window := a.window, previous_app := a.app,
            previous_exe := a.exe, previous_user := a.user }

/-- One iteration of the `while True` body of
`mle/core/monitor/usage/run.py` (lines 53-85).  Control flow mirrored:
the `if active_window and active_window != 'Task Switching'` gate, the
`previous_window != active_window and strftime != DAY_LIMIT` switch
guard, the `usage != (0, 0, 0, 0)` write guard, the
`try/except PermissionError/finally` around `update_data` (the
`finally` reset of `start_time` runs on success, on the caught
`PermissionError`, and on a propagating exception alike), and the
trailing `previous_*` updates. -/
def pollOnce (st : TrackerState) (inp : PollInput) : PollResult :=
  let file := targetFile inp
  if pyTruthy inp.active.window
      && !(inp.active.window == some "Task Switching") then
    if st.previous_window ≠ inp.active.window ∧ inp.tod_guard ≠ DAY_LIMIT then
      let end_time := inp.end_now
      let total_time := end_time - st.start_time
      let usage := split_time_spent total_time
      if usage ≠ (0, 0, 0, 0) then
        let row : Row :=
          { activity := st.previous_window, app := st.previous_app,
            exe := st.previous_exe, user := st.previous_user,
            started := st.start_time, stopped := end_time,
            spent := total_time, days := usage.1, hours := usage.2.1,
            mins := usage.2.2.1, secs := usage.2.2.2 }
        match inp.write with
        | .ok =>
            { state := { observe st inp.active with start_time := inp.reset_now },
              file := file, written := some row, error_notified := false,
              raised := false }
        | .permissionDenied =>
            { state := { observe st inp.active with start_time := inp.reset_now },
              file := file, written := none, error_notified := true,
              raised := false }
        | .otherError =>
            { state := { st with start_time := inp.reset_now },
              file := file, written := none, error_notified := false,
              raised := true }
      else
        { state := observe st inp.active, file := file, written := none,
          error_notified := false, raised := false }
    else
      { state := observe st inp.active, file := file, written := none,
        error_notified := false, raised := false }
  else
    { state := st, file := file, written := none, error_notified := false,
      raised := false }

/-- Iterate `pollOnce` over a list of tick inputs, collecting the rows
actually appended, in order. -/
def pollRun (st : TrackerState) : List PollInput → TrackerState × List Row
  | [] => (st, [])
  | inp :: rest =>
    let r := pollOnce st inp
    let next := pollRun r.state rest
    (next.1, (match r.written with | some row => [row] | none => []) ++ next.2)

/-! ### `update_data` (`mle/utils/write.py`, lines 26-46)

```python
def update_data(file, header, *args):
  if os.path.isfile(file) and os.path.getsize(file) > 0:
    write_data(file, *args)          # open(..., 'a'); writerow(args)
  else:
    write_header(file, header, *args)  # open(..., 'w'); writerow(header); writerow(args)
```
A file is modelled as `Option (List (List String))`: `none` when the
path does not exist, `some rows` for an existing file holding `rows`
CSV lines (`some []` is an existing zero-byte file; every written line
is nonempty on disk, so size `> 0` is `rows ≠ []`). -/

/-- `update_data`: the file contents after the call. -/
def update_data (file : Option (List (List String))) (header : List String)
    (args : List String) : List (List String) :=
  match file with
  | some rows => if rows ≠ [] then rows ++ [args] else [header, args]
  | none => [header, args]

/-! ### Metadata lookups (`mle/core/monitor/usage/app.py`, lines 49-92)

The OS/psutil primitives are an oracle: each call either returns a
string or raises.  The code catches every exception inside the three
lookup helpers and turns it into `None`. -/

/-- Oracle outcomes of the fallible process-metadata primitives for the
foreground pid: `psutil.Process(pid).exe()`, `.name()`, `.username()`,
and the `GetFileVersionInfo` resource-table lookup for a given
executable path (both calls of `get_name_from_exe` folded into one
outcome, since the first raising makes the whole `try` fail). -/
structure ProcEnv where
  exe_path : Except Unit String
  name_res : Except Unit String
  user_res : Except Unit String
  version_info : String → Except Unit String

/-- `get_name_from_exe(path)`: the resource-table lookup, every
exception mapped to `None`. -/
def get_name_from_exe (env : ProcEnv) (path : String) : Option String :=
  match env.version_info path with
  | .ok name => some name
  | .error _ => none

/-- `get_application_name(pid)`: `get_name_from_exe(Process(pid).exe())`
with every exception mapped to `None`. -/
def get_application_name (env : ProcEnv) : Option String :=
  match env.exe_path with
  | .ok path => get_name_from_exe env path
  | .error _ => none

/-- `get_process_name(pid)`: `Process(pid).name()` with every exception
mapped to `None`. -/
def get_process_name (env : ProcEnv) : Option String :=
  match env.name_res with
  | .ok n => some n
  | .error _ => none

/-- `get_username(pid)`: `Process(pid).username()` with every exception
mapped to `None`. -/
def get_username (env : ProcEnv) : Option String :=
  match env.user_res with
  | .ok u => some u
  | .error _ => none

/-- What the OS reports at one `get_active_window()` call: the
foreground window's text, whether its pid still exists, and the
metadata oracle for that pid. -/
structure WinEnv where
  handle : String
  pid_exists : Bool
  proc : ProcEnv

/-- `get_active_window()` from `app.py`: all four fields when the pid
exists, `(None, None, None, None)` otherwise. -/
def get_active_window (w : WinEnv) :
    Option String × Option String × Option String × Option String :=
  if w.pid_exists then
    (some w.handle, get_application_name w.proc, get_process_name w.proc,
     get_username w.proc)
  else (none, none, none, none)

/-- `get_active_window()` from `app_details.py` (lines 49-61), the
revision imported by `application.py`:

```python
  handle = handle if pid_exists(pid) else None
  name = get_name_from_exe(Process(pid).exe()) if pid_exists(pid) else None
  exe = Process(pid).name() if pid_exists(pid) else None
  user = Process(pid).username() if pid_exists(pid) else None
  return handle, name, exe, user
```

Unlike `app.py`, the `Process(pid).exe()`, `.name()` and `.username()`
calls are not wrapped in any `try`: a raise in one of them propagates
out of `get_active_window` (here: an `.error` result), aborting the
assignments that follow it.  Only the resource-table lookup inside
`get_name_from_exe` is caught. -/
def get_active_window_details (w : WinEnv) :
    Except Unit
      (Option String × Option String × Option String × Option String) :=
  if w.pid_exists then
    match w.proc.exe_path with
    | .error e => .error e
    | .ok path =>
      let name := get_name_from_exe w.proc path
      match w.proc.name_res with
      | .error e => .error e
      | .ok exe =>
        match w.proc.user_res with
        | .error e => .error e
        | .ok usr => .ok (some w.handle, name, some exe, some usr)
  else .ok (none, none, none, none)

/-! ### Outer-loop handlers

`mle/core/monitor/usage/application.py` (lines 50-101):

```python
previous_window = previous_app = previous_exe = previous_user = None
while True:
  try:
    log.info(...); toast(...)
    start_time = now()
    while True: ...                    # inner poll loop
  except KeyboardInterrupt:
    log.error(...); toast(...)         # falls through: outer loop resumes
  except Exception:
    log.critical(...); toast(...); log.warning(...)
    time.sleep(dx.EXCEPTION_TIMER)
```

`xai/protocols.py`, `BabyMonitorProtocol.activate` (lines 255-273):

```python
  except KeyboardInterrupt:
    self._log.warning(...); toast(...); exit(0)
  except psutil.AccessDenied: ...      # log + toast, resume
  except Exception: ...                # log + toast, resume
  finally:
    time.sleep(self._exception)        # runs even before the exit propagates
```
-/

/-- Observable effect of one handler clause: whether it logged, whether
it toasted a notification, how long the process sleeps before
continuing, and whether the process exits instead of re-entering the
outer loop. -/
structure HandlerEffect where
  logged : Bool
  toasted : Bool
  sleep_secs : Nat
  exits : Bool
deriving Repr, DecidableEq

/-- `application.py` `except KeyboardInterrupt`: `log.error` + `toast`,
no sleep, and — nothing else: the `while True` outer loop re-enters its
body, so the process does not exit. -/
def application_on_interrupt : HandlerEffect :=
  { logged := true, toasted := true, sleep_secs := 0, exits := false }

/-- `application.py` `except Exception`: `log.critical` + `toast` +
`log.warning`, `time.sleep(EXCEPTION_TIMER)`, then the outer loop
re-enters its body. -/
def application_on_exception : HandlerEffect :=
  { logged := true, toasted := true, sleep_secs := EXCEPTION_TIMER,
    exits := false }

/-- `BabyMonitorProtocol.activate` `except KeyboardInterrupt`:
`log.warning` + `toast` + `exit(0)`; the `finally` still sleeps
`self._exception = 30` seconds before the `SystemExit` propagates. -/
def babymonitor_on_interrupt : HandlerEffect :=
  { logged := true, toasted := true, sleep_secs := 30, exits := true }

/-- State of the next inner-loop entry after `application.py` handles a
generic exception: the outer loop body runs `start_time = now()` again,
but the module-level `previous_*` variables are assigned nowhere in the
outer loop, so they keep the values they had when the exception was
raised. -/
def application_restart (st : TrackerState) (restart_now : Int) : TrackerState :=
  { st with start_time := restart_now }

/-! ### `BabyMonitorProtocol` (`xai/protocols.py`, lines 180-254) -/

/-- `BabyMonitorProtocol._time_spent`:

```python
def _time_spent(self, delta):
  raw = datetime.datetime.strptime(str(delta), self._format)  # '%H:%M:%S'
  return raw.day - 1, raw.hour, raw.minute, raw.second
```
For a whole-second delta `t` with `0 ≤ t < 86400`, `str(delta)` is
`'H:MM:SS'`, which `strptime('%H:%M:%S')` parses (default day 1, so
`raw.day - 1 = 0`).  A negative delta renders as `'-1 day, …'` and a
delta of a day or more as `'1 day, …'`; both make `strptime` raise
`ValueError`, modelled as `none`. -/
def bm_time_spent (t : Int) : Option (Int × Int × Int × Int) :=
  if 0 ≤ t ∧ t < 86400 then
    some (0, Int.fdiv t 3600, Int.fdiv (Int.fmod t 3600) 60, Int.fmod t 60)
  else none

/-- `BabyMonitorProtocol` instance fields touched by `activate`, plus
the two loop locals `act_url` / `act_dmn` (initialised to `None` before
the inner loop and reassigned only inside the write attempt, so their
stale values leak into the `self._url` / `self._dmn` updates of polls
that do not write). -/
structure BMState where
  hnd : Option String
  app : Option String
  url : Option String
  dmn : Option String
  exe : Option String
  usr : Option String
  start_time : Int
  act_url : Option String
  act_dmn : Option String
deriving Repr, DecidableEq

/-- Inputs of one iteration of the `activate` inner loop:
`self._handle_info()` (all-string tuple when the pid exists), the two
`now().strftime('%H:%M:%S')` reads, the two `now()` clock reads, the
`self._absolute_url` / domain-regex results when the write attempt
runs (`url_raises` models the regex `TypeError` or any other
non-`PermissionError` escaping the `try`), and the `write_data`
outcome. -/
structure BMInput where
  act : Option (String × String × String × String)
  tod_guard : String
  end_now : Int
  reset_now : Int
  url : Option String
  dmn : Option String
  url_raises : Bool
  write : WriteOutcome
deriving Repr, DecidableEq

/-- One CSV record written by `activate`: the previous-interval fields
`self._hnd/_app/_url/_dmn/_exe/_usr`, the bounds, the total seconds and
the `_time_spent` tuple. -/
structure BMRow where
  activity : Option String
  app : Option String
  url : Option String
  dmn : Option String
  exe : Option String
  usr : Option String
  started : Int
  stopped : Int
  spent : Int
  days : Int
  hours : Int
  mins : Int
  secs : Int
deriving Repr, DecidableEq

/-- Outcome of one `activate` inner-loop iteration. -/
structure BMPollResult where
  state : BMState
  written : Option BMRow
  raised : Bool
deriving Repr, DecidableEq

/-- The `self._hnd = act_hnd; …` block at the end of the
non-Task-Switching branch of `activate`, with the current values of the
`act_url` / `act_dmn` locals. -/
def bmObserve (st : BMState) (act_hnd act_app act_exe act_usr : String)
    (act_url act_dmn : Option String) : BMState :=
  { st with hnd := some act_hnd, app := some act_app, url := act_url,
            dmn := act_dmn, exe := some act_exe, usr := some act_usr,
            act_url := act_url, act_dmn := act_dmn }

/-- One iteration of the inner `while True` of
`BabyMonitorProtocol.activate` (protocols.py lines 194-254).  Control
flow mirrored: the `if self._act` gate, the
`if act_hnd and act_hnd != 'Task Switching'` gate, the
`self._hnd != act_hnd and strftime != self._limit` switch guard, the
`_time_spent` call (which raises out of the iteration for deltas not of
shape `H:MM:SS`), the `if time_spent != (0, 0, 0, 0) and self._hnd`
write guard, and the `try`/`except PermissionError`/`finally` around
the URL resolution and `write_data`. -/
def bmPollOnce (st : BMState) (inp : BMInput) : BMPollResult :=
  match inp.act with
  | none => { state := st, written := none, raised := false }
  | some (act_hnd, act_app, act_exe, act_usr) =>
    if !(act_hnd == "") && !(act_hnd == "Task Switching") then
      if st.hnd ≠ some act_hnd ∧ inp.tod_guard ≠ DAY_LIMIT then
        let total_time := inp.end_now - st.start_time
        match bm_time_spent total_time with
        | none => { state := st, written := none, raised := true }
        | some ts =>
          if ts ≠ (0, 0, 0, 0) ∧ pyTruthy st.hnd then
            if inp.url_raises then
              { state := { st with start_time := inp.reset_now },
                written := none, raised := true }
            else
              let row : BMRow :=
                { activity := st.hnd, app := st.app, url := st.url,
                  dmn := st.dmn, exe := st.exe, usr := st.usr,
                  started := st.start_time, stopped := inp.end_now,
                  spent := total_time, days := ts.1, hours := ts.2.1,
                  mins := ts.2.2.1, secs := ts.2.2.2 }
              match inp.write with
              | .ok =>
                  { state := { bmObserve st act_hnd act_app act_exe act_usr
                                 inp.url inp.dmn with
                               start_time := inp.reset_now },
                    written := some row, raised := false }
              | .permissionDenied =>
                  { state := { bmObserve st act_hnd act_app act_exe act_usr
                                 inp.url inp.dmn with
                               start_time := inp.reset_now },
                    written := none, raised := false }
              | .otherError =>
                  { state := { st with start_time := inp.reset_now },
                    written := none, raised := true }
          else
            { state := bmObserve st act_hnd act_app act_exe act_usr
                         st.act_url st.act_dmn,
              written := none, raised := false }
      else
        { state := bmObserve st act_hnd act_app act_exe act_usr
                     st.act_url st.act_dmn,
          written := none, raised := false }
    else
      { state := st, written := none, raised := false }

/-! ## Helper lemmas -/

theorem pyListLt_nil : pyListLt [] [] = false := rfl

theorem pyListLt_cons (a b : Nat) (as bs : List Nat) :
    pyListLt (a :: as) (b :: bs) = true ↔
      a < b ∨ (a = b ∧ pyListLt as bs = true) := by
  simp only [pyListLt]
  split
  · next h => simp [h]
  · next h =>
      split
      · next h2 =>
          simp only [Bool.false_eq_true, false_iff]
          rintro (h3 | ⟨h3, -⟩) <;> omega
      · next h2 =>
          have hab : a = b := by omega
          subst hab
          simp

theorem digitChar_toNat {k : Nat} (hk : k < 10) :
    (digitChar k).toNat = 48 + k := by
  interval_cases k <;> rfl

theorem strftime_codes (h m s : Nat) (hh : h < 24) (hm : m < 60)
    (hs : s < 60) :
    (strftimeHMS h m s).data.map Char.toNat =
      [48 + h / 10, 48 + h % 10, 58, 48 + m / 10, 48 + m % 10, 58,
       48 + s / 10, 48 + s % 10] := by
  have e1 := digitChar_toNat (k := h / 10) (by omega)
  have e2 := digitChar_toNat (k := h % 10) (by omega)
  have e3 := digitChar_toNat (k := m / 10) (by omega)
  have e4 := digitChar_toNat (k := m % 10) (by omega)
  have e5 := digitChar_toNat (k := s / 10) (by omega)
  have e6 := digitChar_toNat (k := s % 10) (by omega)
  have ec : (':' : Char).toNat = 58 := rfl
  simp [strftimeHMS, e1, e2, e3, e4, e5, e6, ec]

/-- Lexicographic comparison of two zero-padded `HH:MM:SS` digit
sequences agrees with the numeric order of the encoded times. -/
theorem lexDigits_iff {A A2 B B2 C C2 D D2 E E2 F F2 : Nat}
    (lh : A2 < 10) (lm : B2 < 10) (ls : C2 < 10)
    (lh2 : D2 < 10) (lm2 : E2 < 10) (ls2 : F2 < 10)
    (_bh : 10 * A + A2 < 24) (bm : 10 * B + B2 < 60) (bs : 10 * C + C2 < 60)
    (_bh2 : 10 * D + D2 < 24) (bm2 : 10 * E + E2 < 60)
    (bs2 : 10 * F + F2 < 60) :
    (48 + A < 48 + D ∨
      48 + A = 48 + D ∧
        (48 + A2 < 48 + D2 ∨
          48 + A2 = 48 + D2 ∧
            (58 < 58 ∨
              True ∧
                (48 + B < 48 + E ∨
                  48 + B = 48 + E ∧
                    (48 + B2 < 48 + E2 ∨
                      48 + B2 = 48 + E2 ∧
                        (58 < 58 ∨
                          True ∧
                            (48 + C < 48 + F ∨
                              48 + C = 48 + F ∧
                                (48 + C2 < 48 + F2 ∨
                                  48 + C2 = 48 + F2 ∧ False))))))) ↔
      3600 * (10 * A + A2) + 60 * (10 * B + B2) + (10 * C + C2) <
        3600 * (10 * D + D2) + 60 * (10 * E + E2) + (10 * F + F2)) := by
  constructor
  · rintro (h1 | ⟨h1, h2 | ⟨h2, h3 | ⟨-, h4 | ⟨h4, h5 | ⟨h5, h6 |
      ⟨-, h7 | ⟨h7, h8 | ⟨h8, ⟨⟩⟩⟩⟩⟩⟩⟩⟩⟩) <;> omega
  · intro hx
    rcases Nat.lt_trichotomy A D with hAD | hAD | hAD
    · exact Or.inl (by omega)
    · rcases Nat.lt_trichotomy A2 D2 with hA2 | hA2 | hA2
      · exact Or.inr ⟨by omega, Or.inl (by omega)⟩
      · rcases Nat.lt_trichotomy B E with hBE | hBE | hBE
        · exact Or.inr ⟨by omega, Or.inr ⟨by omega,
            Or.inr ⟨trivial, Or.inl (by omega)⟩⟩⟩
        · rcases Nat.lt_trichotomy B2 E2 with hB2 | hB2 | hB2
          · exact Or.inr ⟨by omega, Or.inr ⟨by omega, Or.inr ⟨trivial,
              Or.inr ⟨by omega, Or.inl (by omega)⟩⟩⟩⟩
          · rcases Nat.lt_trichotomy C F with hCF | hCF | hCF
            · exact Or.inr ⟨by omega, Or.inr ⟨by omega, Or.inr ⟨trivial,
                Or.inr ⟨by omega, Or.inr ⟨by omega, Or.inr ⟨trivial,
                Or.inl (by omega)⟩⟩⟩⟩⟩⟩
            · rcases Nat.lt_trichotomy C2 F2 with hC2 | hC2 | hC2
              · exact Or.inr ⟨by omega, Or.inr ⟨by omega, Or.inr ⟨trivial,
                  Or.inr ⟨by omega, Or.inr ⟨by omega, Or.inr ⟨trivial,
                  Or.inr ⟨by omega, Or.inl (by omega)⟩⟩⟩⟩⟩⟩⟩
              · exact absurd hx (by omega)
              · exact absurd hx (by omega)
            · exact absurd hx (by omega)
          · exact absurd hx (by omega)
        · exact absurd hx (by omega)
      · exact absurd hx (by omega)
    · exact absurd hx (by omega)

theorem pyStrLt_strftime (h m s h2 m2 s2 : Nat) (hh : h < 24) (hm : m < 60)
    (hs : s < 60) (hh2 : h2 < 24) (hm2 : m2 < 60) (hs2 : s2 < 60) :
    pyStrLt (strftimeHMS h m s) (strftimeHMS h2 m2 s2) = true ↔
      3600 * h + 60 * m + s < 3600 * h2 + 60 * m2 + s2 := by
  rw [pyStrLt, strftime_codes h m s hh hm hs,
      strftime_codes h2 m2 s2 hh2 hm2 hs2]
  simp only [pyListLt_cons, pyListLt_nil, Bool.false_eq_true]
  rw [lexDigits_iff (by omega) (by omega) (by omega) (by omega) (by omega)
    (by omega) (by omega) (by omega) (by omega) (by omega) (by omega)
    (by omega)]
  constructor <;> intro <;> omega

/-- The `strftime('%H:%M:%S') >= DAY_LIMIT` comparison holds for a
well-formed time-of-day exactly when the time-of-day, in seconds, is at
or after 23:59:59 — i.e. at the single last second of the day. -/
theorem pyStrGe_day_limit (h m s : Nat) (hh : h < 24) (hm : m < 60)
    (hs : s < 60) :
    pyStrGe (strftimeHMS h m s) DAY_LIMIT = true ↔
      86399 ≤ 3600 * h + 60 * m + s := by
  have hd : DAY_LIMIT = strftimeHMS 23 59 59 := by decide
  have L := pyStrLt_strftime h m s 23 59 59 hh hm hs (by norm_num)
    (by norm_num) (by norm_num)
  rw [pyStrGe, hd, Bool.not_eq_true']
  constructor
  · intro hf
    rcases Nat.lt_or_ge (3600 * h + 60 * m + s) 86399 with hlt | hge
    · rw [L.mpr (by omega)] at hf
      exact absurd hf (by simp)
    · omega
  · intro hge
    cases hb : pyStrLt (strftimeHMS h m s) (strftimeHMS 23 59 59)
    · rfl
    · have := L.mp hb
      omega

/-- The target file path computed by a poll is `targetFile` in every
branch of the loop body. -/
theorem pollOnce_file (st : TrackerState) (inp : PollInput) :
    (pollOnce st inp).file = targetFile inp := by
  simp only [pollOnce]
  split
  · split
    · split
      · split <;> rfl
      · rfl
    · rfl
  · rfl

theorem split_time_spent_zero : split_time_spent 0 = (0, 0, 0, 0) := by decide

/-! ## Concrete fixtures used by witnesses and counterexamples -/

/-- A tracker state one second into an open interval on `Code`. -/
def wPollState : TrackerState :=
  { previous_window := some "Code", previous_app := some "Visual Studio Code",
    previous_exe := some "Code.exe", previous_user := some "xa",
    start_time := 0 }

/-- A tick observed in the last second of the day. -/
def wRolloverInput : PollInput :=
  { active := { window := some "Chrome", app := some "Google Chrome",
                exe := some "chrome.exe", user := some "xa" },
    tod_file := "23:59:59", tod_guard := "23:59:58", date_today := "12_10_25",
    date_tomorrow := "13_10_25", end_now := 5, reset_now := 5, write := .ok }

/-- A tick arriving before a full recorded second has elapsed. -/
def wFastInput : PollInput :=
  { active := { window := some "Chrome", app := some "Google Chrome",
                exe := some "chrome.exe", user := some "xa" },
    tod_file := "10:00:00", tod_guard := "10:00:00", date_today := "12_10_25",
    date_tomorrow := "13_10_25", end_now := 0, reset_now := 0, write := .ok }

/-! ## Claims -/

/-- C1: a CSV row is appended on a poll only when the resolved window
title differs from `previous_window`, the current time-of-day string
differs from the day-limit `"23:59:59"`, and the decomposed duration
tuple is not `(0, 0, 0, 0)`; and no row is appended on a poll where
less than one full second elapsed since `interval_start`. -/
theorem row_append_guards (st : TrackerState) (inp : PollInput) :
    (∀ r : Row, (pollOnce st inp).written = some r →
       st.previous_window ≠ inp.active.window ∧ inp.tod_guard ≠ DAY_LIMIT ∧
       split_time_spent (inp.end_now - st.start_time) ≠ (0, 0, 0, 0))
    ∧ (st.start_time ≤ inp.end_now → inp.end_now < st.start_time + 1 →
       (pollOnce st inp).written = none) := by
  constructor
  · intro r hr
    simp only [pollOnce] at hr
    split at hr
    · split at hr
      · split at hr
        · next hguard husage =>
            split at hr
            · exact ⟨hguard.1, hguard.2, husage⟩
            · exact absurd hr (by simp)
            · exact absurd hr (by simp)
        · exact absurd hr (by simp)
      · exact absurd hr (by simp)
    · exact absurd hr (by simp)
  · intro h1 h2
    have he : inp.end_now - st.start_time = 0 := by omega
    simp only [pollOnce, he, split_time_spent_zero]
    split
    · split
      · simp
      · rfl
    · rfl

theorem row_append_guards_witness :
    (pollOnce wPollState wFastInput).written = none :=
  (row_append_guards wPollState wFastInput).2 (by decide) (by decide)

/-- C2: the target CSV file path of a poll is built from tomorrow's
date exactly when the current local time-of-day, formatted
`%H:%M:%S`, is at or after the day-limit `23:59:59` (in seconds:
`86399 ≤ 3600*h + 60*m + s`), and from today's date otherwise. -/
theorem target_file_day_rollover (st : TrackerState) (inp : PollInput)
    (h m s : Nat) (hh : h < 24) (hm : m < 60) (hs : s < 60)
    (ht : inp.tod_file = strftimeHMS h m s) :
    (pollOnce st inp).file =
      joinPath usage_dir
        ((if 86399 ≤ 3600 * h + 60 * m + s then inp.date_tomorrow
          else inp.date_today) ++ ".csv") := by
  rw [pollOnce_file, targetFile, ht]
  by_cases hc : 86399 ≤ 3600 * h + 60 * m + s
  · rw [if_pos ((pyStrGe_day_limit h m s hh hm hs).mpr hc), if_pos hc]
  · rw [if_neg (fun hx => hc ((pyStrGe_day_limit h m s hh hm hs).mp hx)),
        if_neg hc]

theorem target_file_day_rollover_witness :
    (pollOnce wPollState wRolloverInput).file =
      joinPath usage_dir
        ((if 86399 ≤ 3600 * 23 + 60 * 59 + 59 then "13_10_25"
          else "12_10_25") ++ ".csv") :=
  target_file_day_rollover wPollState wRolloverInput 23 59 59 (by decide)
    (by decide) (by decide) (by decide)

/-- A 24-hour dwell on `Code` ending in a switch to `Chrome`. -/
def wDayInput : PollInput :=
  { active := { window := some "Chrome", app := some "Google Chrome",
                exe := some "chrome.exe", user := some "xa" },
    tod_file := "10:00:00", tod_guard := "10:00:00", date_today := "12_10_25",
    date_tomorrow := "13_10_25", end_now := 86400, reset_now := 86400,
    write := .ok }

/-- C3 counterexample: on a poll closing a 24-hour interval, the CSV
row appended carries `1` — not `0` — in its days column:
`split_time_spent` returns `total_time.days` as its first component,
and the loop writes that component out. -/
theorem days_column_nonzero :
    (pollOnce wPollState wDayInput).written =
      some { activity := some "Code", app := some "Visual Studio Code",
             exe := some "Code.exe", user := some "xa", started := 0,
             stopped := 86400, spent := 86400, days := 1, hours := 24,
             mins := 0, secs := 0 }
    ∧ (1 : Int) ≠ 0 := by
  exact ⟨by decide, by decide⟩

/-- C3 amended: the decomposition merges days into hours
(`hours = days * 24 + remaining-seconds div 3600`), but its first
component — the value emitted in the CSV days column — equals the
timedelta's day count: it is `0` exactly for durations under 24 hours
and nonzero for durations of a day or more. -/
theorem split_time_spent_shape (t : Int) (ht : 0 ≤ t) :
    (split_time_spent t).2.1 =
        (split_time_spent t).1 * 24 + Int.fdiv (timedeltaSeconds t) 3600
    ∧ (split_time_spent t).1 = timedeltaDays t
    ∧ ((split_time_spent t).1 = 0 ↔ t < 86400) := by
  refine ⟨rfl, rfl, ?_⟩
  rw [split_time_spent]
  simp only [timedeltaDays]
  rw [Int.fdiv_eq_ediv _ (by norm_num)]
  constructor <;> intro <;> omega

theorem split_time_spent_shape_witness :
    ((split_time_spent 90061).2.1 =
        (split_time_spent 90061).1 * 24 + Int.fdiv (timedeltaSeconds 90061) 3600
    ∧ (split_time_spent 90061).1 = timedeltaDays 90061
    ∧ ((split_time_spent 90061).1 = 0 ↔ (90061 : Int) < 86400)) :=
  split_time_spent_shape 90061 (by decide)

/-- C4: a poll whose resolved window title is `"Task Switching"` is a
complete no-op — no row, no `interval_start` reset, no `previous_*`
update — and a poll sequence `a`, `"Task Switching"`, `a` appends no
row and leaves `previous_window` at `a`. -/
theorem task_switching_invisible :
    (∀ (st : TrackerState) (inp : PollInput),
        inp.active.window = some "Task Switching" →
        pollOnce st inp =
          { state := st, file := targetFile inp, written := none,
            error_notified := false, raised := false })
    ∧ (∀ (a : String) (st : TrackerState) (i1 i2 i3 : PollInput),
        a ≠ "" → a ≠ "Task Switching" → st.previous_window = some a →
        i1.active.window = some a →
        i2.active.window = some "Task Switching" →
        i3.active.window = some a →
        (pollRun st [i1, i2, i3]).2 = [] ∧
        (pollRun st [i1, i2, i3]).1.previous_window = some a) := by
  have hts : ∀ (st : TrackerState) (inp : PollInput),
      inp.active.window = some "Task Switching" →
      pollOnce st inp =
        { state := st, file := targetFile inp, written := none,
          error_notified := false, raised := false } := by
    intro st inp hw
    simp only [pollOnce, hw]
    simp
  have hsame : ∀ (a : String) (st : TrackerState) (i : PollInput),
      a ≠ "" → a ≠ "Task Switching" → st.previous_window = some a →
      i.active.window = some a →
      pollOnce st i =
        { state := observe st i.active, file := targetFile i, written := none,
          error_notified := false, raised := false } := by
    intro a st i ha ha2 hprev hw
    simp only [pollOnce, hw, hprev]
    simp [pyTruthy, ha, ha2]
  refine ⟨hts, ?_⟩
  intro a st i1 i2 i3 ha ha2 hprev h1 h2 h3
  have e1 := hsame a st i1 ha ha2 hprev h1
  have hprev1 : (observe st i1.active).previous_window = some a := by
    rw [observe, h1]
  have e2 := hts (observe st i1.active) i2 h2
  have e3 := hsame a (observe st i1.active) i3 ha ha2 hprev1 h3
  simp only [pollRun, e1, e2, e3]
  constructor
  · rfl
  · rw [observe, h3]

/-- Fixture ticks for the `a`, `"Task Switching"`, `a` sequence. -/
def wTSInput : PollInput :=
  { active := { window := some "Task Switching", app := none,
                exe := none, user := none },
    tod_file := "10:00:02", tod_guard := "10:00:02", date_today := "12_10_25",
    date_tomorrow := "13_10_25", end_now := 2, reset_now := 2, write := .ok }

def wCodeInput : PollInput :=
  { active := { window := some "Code", app := some "Visual Studio Code",
                exe := some "Code.exe", user := some "xa" },
    tod_file := "10:00:01", tod_guard := "10:00:01", date_today := "12_10_25",
    date_tomorrow := "13_10_25", end_now := 1, reset_now := 1, write := .ok }

theorem task_switching_invisible_witness :
    (pollRun wPollState [wCodeInput, wTSInput, wCodeInput]).2 = [] ∧
    (pollRun wPollState [wCodeInput, wTSInput, wCodeInput]).1.previous_window
      = some "Code" :=
  task_switching_invisible.2 "Code" wPollState wCodeInput wTSInput wCodeInput
    (by decide) (by decide) (by decide) (by decide) (by decide) (by decide)

/-- Tracker state at the moment an exception escapes the inner loop. -/
def wExcState : TrackerState :=
  { previous_window := some "Chrome", previous_app := some "Google Chrome",
    previous_exe := some "chrome.exe", previous_user := some "xa",
    start_time := 7 }

/-- C5 counterexample: the state the inner loop restarts with after the
outer loop of `application.py` handles a generic exception is not fully
reset — `previous_window` keeps its pre-exception value instead of
returning to the initial `None`. -/
theorem exception_restart_not_full_reset :
    (application_restart wExcState 100).previous_window = some "Chrome"
    ∧ some "Chrome" ≠ (none : Option String) := by
  exact ⟨rfl, by decide⟩

/-- C5 amended: a generic exception escaping the poll-loop body is
caught at the outer loop boundary, logged, the user is notified, the
process sleeps the 30-second exception backoff and does not exit, and
the inner loop restarts with `interval_start` reset to `now()` — but
the four `previous_*` fields keep the values they had when the
exception was raised (they are assigned nowhere in the outer loop). -/
theorem exception_backoff_restart (st : TrackerState) (t : Int) :
    application_on_exception.logged = true
    ∧ application_on_exception.toasted = true
    ∧ application_on_exception.sleep_secs = EXCEPTION_TIMER
    ∧ application_on_exception.sleep_secs = 30
    ∧ application_on_exception.exits = false
    ∧ (application_restart st t).start_time = t
    ∧ (application_restart st t).previous_window = st.previous_window
    ∧ (application_restart st t).previous_app = st.previous_app
    ∧ (application_restart st t).previous_exe = st.previous_exe
    ∧ (application_restart st t).previous_user = st.previous_user :=
  ⟨rfl, rfl, rfl, rfl, rfl, rfl, rfl, rfl, rfl, rfl⟩

/-- C6 counterexample: in `application.py`, the `KeyboardInterrupt`
handler does not exit the process — after logging and toasting, the
outer `while True` loop resumes polling. -/
theorem application_interrupt_no_exit :
    application_on_interrupt.exits = false
    ∧ application_on_interrupt.logged = true
    ∧ application_on_interrupt.toasted = true :=
  ⟨rfl, rfl, rfl⟩

/-- C6 amended: on a keyboard interrupt both revisions log and notify;
`BabyMonitorProtocol.activate` then exits the process (`exit(0)`),
while the `application.py` outer loop does not exit and instead
restarts the polling loop immediately (no backoff sleep). -/
theorem interrupt_handler_behavior :
    babymonitor_on_interrupt.logged = true
    ∧ babymonitor_on_interrupt.toasted = true
    ∧ babymonitor_on_interrupt.exits = true
    ∧ application_on_interrupt.logged = true
    ∧ application_on_interrupt.toasted = true
    ∧ application_on_interrupt.exits = false
    ∧ application_on_interrupt.sleep_secs = 0 :=
  ⟨rfl, rfl, rfl, rfl, rfl, rfl, rfl⟩

/-- C7: when the CSV append raises `PermissionError` on a poll that
attempted a write, the tracker notifies, nothing is appended, no
exception escapes the iteration, and `interval_start` is reset to
`now()`; the resulting tracker state is identical to the
successful-write case — the dropped interval is not retried. -/
theorem permission_denied_drops_interval (st : TrackerState)
    (inp : PollInput) (hperm : inp.write = .permissionDenied)
    (hgate : pyTruthy inp.active.window = true)
    (hts : inp.active.window ≠ some "Task Switching")
    (hswitch : st.previous_window ≠ inp.active.window)
    (htod : inp.tod_guard ≠ DAY_LIMIT)
    (husage : split_time_spent (inp.end_now - st.start_time) ≠ (0, 0, 0, 0)) :
    (pollOnce st inp).error_notified = true
    ∧ (pollOnce st inp).written = none
    ∧ (pollOnce st inp).raised = false
    ∧ (pollOnce st inp).state.start_time = inp.reset_now
    ∧ (pollOnce st inp).state = (pollOnce st { inp with write := .ok }).state := by
  have hb : (inp.active.window == some "Task Switching") = false :=
    beq_eq_false_iff_ne.mpr hts
  simp only [pollOnce, hgate, hb, hperm, Bool.not_false, Bool.and_self,
    if_pos (And.intro hswitch htod), if_pos husage]
  simp

/-- A poll that attempts a write but finds the CSV locked. -/
def wPermInput : PollInput :=
  { active := { window := some "Chrome", app := some "Google Chrome",
                exe := some "chrome.exe", user := some "xa" },
    tod_file := "10:00:03", tod_guard := "10:00:03", date_today := "12_10_25",
    date_tomorrow := "13_10_25", end_now := 3, reset_now := 3,
    write := .permissionDenied }

theorem permission_denied_drops_interval_witness :
    (pollOnce wPollState wPermInput).error_notified = true
    ∧ (pollOnce wPollState wPermInput).written = none
    ∧ (pollOnce wPollState wPermInput).raised = false
    ∧ (pollOnce wPollState wPermInput).state.start_time = wPermInput.reset_now
    ∧ (pollOnce wPollState wPermInput).state =
        (pollOnce wPollState { wPermInput with write := .ok }).state :=
  permission_denied_drops_interval wPollState wPermInput (by decide)
    (by decide) (by decide) (by decide) (by decide) (by decide)

/-- An observation where the executable-path lookup raises but the
process-name and username lookups would succeed. -/
def wLookupEnv : WinEnv :=
  { handle := "Google Chrome", pid_exists := true,
    proc := { exe_path := .error (), name_res := .ok "chrome.exe",
              user_res := .ok "xa",
              version_info := fun _ => .ok "Google Chrome" } }

/-- C8 counterexample: in the `app_details.py` revision of
`get_active_window` — the one `application.py` imports — an exception
from `Process(pid).exe()` propagates out of the call (an `.error`
result instead of any tuple), even though the pid exists and the
process-name and username lookups on their own would have resolved:
the failing lookup is not turned into `None` and it blocks the other
lookups. -/
theorem app_details_lookup_propagates :
    get_active_window_details wLookupEnv = .error ()
    ∧ wLookupEnv.pid_exists = true
    ∧ wLookupEnv.proc.name_res = .ok "chrome.exe"
    ∧ wLookupEnv.proc.user_res = .ok "xa" :=
  ⟨rfl, rfl, rfl, rfl⟩

/-- C8 amended: the two revisions differ.  In `app.py` (used by
`run.py`), for a pid whose process exists each of the three metadata
lookups is a total function whose value is `none` exactly when its own
underlying primitive fails — no exception propagates — and each
component of `get_active_window` is determined by its own primitive
alone, so one lookup failing does not prevent the others from being
resolved.  In `app_details.py` (used by `application.py`), the
`Process(pid).exe()`, `.name()` and `.username()` calls are uncaught:
a failure in any of them propagates out of `get_active_window`,
aborting the remaining lookups; only the resource-table lookup inside
`get_name_from_exe` is caught and mapped to `None`. -/
theorem metadata_lookup_two_revisions (w : WinEnv)
    (hpid : w.pid_exists = true) :
    ((get_active_window w).1 = some w.handle
      ∧ ((get_active_window w).2.1 = none ↔
          (w.proc.exe_path = .error () ∨
           ∃ p, w.proc.exe_path = .ok p ∧ w.proc.version_info p = .error ()))
      ∧ ((get_active_window w).2.2.1 = none ↔ w.proc.name_res = .error ())
      ∧ ((get_active_window w).2.2.2 = none ↔ w.proc.user_res = .error ())
      ∧ (∀ v, w.proc.name_res = .ok v → (get_active_window w).2.2.1 = some v)
      ∧ (∀ v, w.proc.user_res = .ok v → (get_active_window w).2.2.2 = some v))
    ∧ (w.proc.exe_path = .error () →
        get_active_window_details w = .error ())
    ∧ (∀ p, w.proc.exe_path = .ok p → w.proc.name_res = .error () →
        get_active_window_details w = .error ())
    ∧ (∀ p n, w.proc.exe_path = .ok p → w.proc.name_res = .ok n →
        w.proc.user_res = .error () →
        get_active_window_details w = .error ())
    ∧ (∀ p n u, w.proc.exe_path = .ok p → w.proc.name_res = .ok n →
        w.proc.user_res = .ok u →
        get_active_window_details w =
          .ok (some w.handle, get_name_from_exe w.proc p, some n, some u)) := by
  refine ⟨?_, ?_, ?_, ?_, ?_⟩
  · rw [get_active_window, if_pos hpid]
    refine ⟨rfl, ?_, ?_, ?_, ?_, ?_⟩
    · cases hexe : w.proc.exe_path with
      | error e =>
          cases e
          simp [get_application_name, hexe]
      | ok p =>
          cases hvi : w.proc.version_info p with
          | error e =>
              cases e
              simp [get_application_name, get_name_from_exe, hexe, hvi]
          | ok v =>
              simp [get_application_name, get_name_from_exe, hexe, hvi]
    · cases hn : w.proc.name_res with
      | error e => cases e; simp [get_process_name, hn]
      | ok v => simp [get_process_name, hn]
    · cases hu : w.proc.user_res with
      | error e => cases e; simp [get_username, hu]
      | ok v => simp [get_username, hu]
    · intro v hv
      simp [get_process_name, hv]
    · intro v hv
      simp [get_username, hv]
  · intro hexe
    simp [get_active_window_details, hpid, hexe]
  · intro p hexe hn
    simp [get_active_window_details, hpid, hexe, hn]
  · intro p n hexe hn hu
    simp [get_active_window_details, hpid, hexe, hn, hu]
  · intro p n u hexe hn hu
    simp [get_active_window_details, hpid, hexe, hn, hu]

theorem metadata_lookup_two_revisions_witness :
    (get_active_window wLookupEnv).2.1 = none
    ∧ (get_active_window wLookupEnv).2.2.1 = some "chrome.exe"
    ∧ (get_active_window wLookupEnv).2.2.2 = some "xa"
    ∧ get_active_window_details wLookupEnv = .error () := by
  obtain ⟨⟨h1, h2, h3, h4, h5, h6⟩, hd1, hd2, hd3, hd4⟩ :=
    metadata_lookup_two_revisions wLookupEnv rfl
  exact ⟨h2.mpr (Or.inl rfl), h5 _ rfl, h6 _ rfl, hd1 rfl⟩

/-- C9: `update_data` writes the header line followed by the data row
exactly when the target file does not exist or has zero size, and
otherwise appends only the data row; a first write to a fresh path
leaves header plus one row, and a second write adds one data row while
the header occurs exactly once in the file. -/
theorem update_data_header_once (header a b : List String)
    (rows : List (List String)) (hha : header ≠ a) (hhb : header ≠ b)
    (hrows : rows ≠ []) :
    update_data none header a = [header, a]
    ∧ update_data (some []) header a = [header, a]
    ∧ update_data (some rows) header b = rows ++ [b]
    ∧ update_data (some (update_data none header a)) header b
        = [header, a, b]
    ∧ List.count header
        (update_data (some (update_data none header a)) header b) = 1 := by
  refine ⟨rfl, rfl, by rw [update_data, if_pos hrows], ?_, ?_⟩
  · rfl
  · show List.count header [header, a, b] = 1
    have hba : (a == header) = false :=
      beq_eq_false_iff_ne.mpr (fun e => hha e.symm)
    have hbb : (b == header) = false :=
      beq_eq_false_iff_ne.mpr (fun e => hhb e.symm)
    simp [List.count_cons, hba, hbb]

/-- The CSV header of the usage tracker. -/
def usageHeader : List String :=
  ["activity", "app", "executable", "user", "started", "stopped", "spent",
   "days", "hours", "mins", "secs"]

theorem update_data_header_once_witness :
    update_data none usageHeader ["Code", "1"] = [usageHeader, ["Code", "1"]]
    ∧ update_data (some []) usageHeader ["Code", "1"]
        = [usageHeader, ["Code", "1"]]
    ∧ update_data (some [usageHeader]) usageHeader ["B", "2"]
        = [usageHeader] ++ [["B", "2"]]
    ∧ update_data (some (update_data none usageHeader ["Code", "1"]))
        usageHeader ["B", "2"] = [usageHeader, ["Code", "1"], ["B", "2"]]
    ∧ List.count usageHeader
        (update_data (some (update_data none usageHeader ["Code", "1"]))
          usageHeader ["B", "2"]) = 1 :=
  update_data_header_once usageHeader ["Code", "1"] ["B", "2"] [usageHeader]
    (by decide) (by decide) (by decide)

/-- The state of the `run.py` loop right after service start: all four
`previous_*` variables are `None`. -/
def mleInitState : TrackerState :=
  { previous_window := none, previous_app := none, previous_exe := none,
    previous_user := none, start_time := 0 }

/-- The first poll after start that observes a window, one second in. -/
def mleFirstSwitch : PollInput :=
  { active := { window := some "Chrome", app := some "Google Chrome",
                exe := some "chrome.exe", user := some "xa" },
    tod_file := "10:00:01", tod_guard := "10:00:01", date_today := "12_10_25",
    date_tomorrow := "13_10_25", end_now := 1, reset_now := 1, write := .ok }

/-- A `BabyMonitorProtocol` state with an open interval on `Editor`. -/
def wBMState : BMState :=
  { hnd := some "Editor", app := some "Text Editor", url := none,
    dmn := none, exe := some "editor.exe", usr := some "xa",
    start_time := 0, act_url := none, act_dmn := none }

/-- A switch observed by `BabyMonitorProtocol` ten seconds in. -/
def wBMInput : BMInput :=
  { act := some ("Chrome", "Google Chrome", "chrome.exe", "xa"),
    tod_guard := "10:00:10", end_now := 10, reset_now := 10, url := none,
    dmn := none, url_raises := false, write := .ok }

/-- The row `bmPollOnce wBMState wBMInput` writes. -/
def wBMRow : BMRow :=
  { activity := some "Editor", app := some "Text Editor", url := none,
    dmn := none, exe := some "editor.exe", usr := some "xa", started := 0,
    stopped := 10, spent := 10, days := 0, hours := 0, mins := 0,
    secs := 10 }

/-- C10: `BabyMonitorProtocol.activate` never writes a CSV row whose
activity field (the previous window handle) is null — its write guard
`time_spent != (0, 0, 0, 0) and self._hnd` demands a truthy previous
handle — whereas the `run.py` loop, lacking that extra conjunct,
appends a row whose four `previous_*` fields are all `None` on the
first switch at least one second after start. -/
theorem babymonitor_no_null_activity :
    (∀ (st : BMState) (inp : BMInput) (r : BMRow),
        (bmPollOnce st inp).written = some r → pyTruthy r.activity = true)
    ∧ (pollOnce mleInitState mleFirstSwitch).written =
        some { activity := none, app := none, exe := none, user := none,
               started := 0, stopped := 1, spent := 1, days := 0,
               hours := 0, mins := 0, secs := 1 } := by
  constructor
  · intro st inp r hr
    simp only [bmPollOnce] at hr
    split at hr
    · exact absurd hr (by simp)
    · split at hr
      · split at hr
        · split at hr
          · exact absurd hr (by simp)
          · split at hr
            · rename_i hguard
              split at hr
              · exact absurd hr (by simp)
              · split at hr
                · have hrow := Option.some.inj hr
                  rw [← hrow]
                  exact hguard.2
                · exact absurd hr (by simp)
                · exact absurd hr (by simp)
            · exact absurd hr (by simp)
        · exact absurd hr (by simp)
      · exact absurd hr (by simp)
  · decide

theorem babymonitor_no_null_activity_witness :
    pyTruthy wBMRow.activity = true :=
  babymonitor_no_null_activity.1 wBMState wBMInput wBMRow (by decide)

end Xai
